import Mathlib

/-!
Shallow embedding of the `MedChain` Solidity contract
(medical record sharing with role-based access control,
time-bounded grants, emergency override, and per-actor audit trails).

Addresses are modelled as natural numbers; `block.timestamp` is an
explicit `now : Nat` argument; Solidity mappings are total functions
with the zero value as default; a reverting call is an `Except.error`
(the caller's state is unchanged, matching EVM revert semantics).
-/

namespace MedChain

abbrev Address := Nat

inductive UserRole where
  | None
  | Patient
  | Doctor
  | Admin
deriving DecidableEq, Repr

structure User where
  userAddress : Address
  name : String
  role : UserRole
  isRegistered : Bool
  registrationTime : Nat
deriving DecidableEq, Repr

/-- Solidity zero value for the `User` struct (unregistered). -/
def User.zero : User :=
  { userAddress := 0, name := "", role := UserRole.None,
    isRegistered := false, registrationTime := 0 }

structure MedicalRecord where
  recordId : Nat
  patientAddress : Address
  ipfsHash : String
  recordType : String
  description : String
  timestamp : Nat
  exists_ : Bool
deriving DecidableEq, Repr

/-- Solidity zero value for the `MedicalRecord` struct. -/
def MedicalRecord.zero : MedicalRecord :=
  { recordId := 0, patientAddress := 0, ipfsHash := "", recordType := "",
    description := "", timestamp := 0, exists_ := false }

structure AccessPermission where
  doctorAddress : Address
  grantedAt : Nat
  expiresAt : Nat
  isActive : Bool
  purpose : String
deriving DecidableEq, Repr

/-- Solidity zero value for the `AccessPermission` struct. -/
def AccessPermission.zero : AccessPermission :=
  { doctorAddress := 0, grantedAt := 0, expiresAt := 0,
    isActive := false, purpose := "" }

structure AuditLog where
  accessor : Address
  recordId : Nat
  timestamp : Nat
  action : String
deriving DecidableEq, Repr

/-- The contract state: all storage variables of `MedChain`. -/
structure State where
  users : Address → User
  patientRecords : Address → List Nat
  records : Nat → MedicalRecord
  permissions : Address → Address → AccessPermission
  auditTrails : Address → List AuditLog
  recordCounter : Nat
  admin : Address
  emergencyMode : Bool

/-- The revert reasons of the contract (one per distinct `require`). -/
inductive MCError where
  | AlreadyRegistered
  | InvalidRole
  | EmptyName
  | NotRegistered
  | WrongRole
  | EmptyPayloadReference
  | RecordNotFound
  | Unauthorized
  | GranteeNotDoctor
  | GranteeNotRegistered
  | NoActivePermission
  | AdminOnly
deriving DecidableEq, Repr

/-- Contract constructor: sets the deployer as admin and registers it. -/
def constructorMC (sender : Address) (now : Nat) : State :=
  { users := fun a =>
      if a = sender then
        { userAddress := sender, name := "System Admin", role := UserRole.Admin,
          isRegistered := true, registrationTime := now }
      else User.zero
    patientRecords := fun _ => []
    records := fun _ => MedicalRecord.zero
    permissions := fun _ _ => AccessPermission.zero
    auditTrails := fun _ => []
    recordCounter := 0
    admin := sender
    emergencyMode := false }

/-- Internal helper `_addAuditLog(accessor, recordId, action)`: push an entry on the
actor's trail. -/
def addAuditLog (trails : Address → List AuditLog) (accessor : Address)
    (recordId : Nat) (now : Nat) (action : String) : Address → List AuditLog :=
  fun a =>
    if a = accessor then
      trails a ++ [{ accessor := accessor, recordId := recordId,
                     timestamp := now, action := action }]
    else trails a

/-- Contract function `registerUser(name, role)`. -/
def registerUser (s : State) (sender : Address) (now : Nat)
    (name : String) (role : UserRole) : Except MCError State :=
  if (s.users sender).isRegistered then .error .AlreadyRegistered
  else if ¬(role = UserRole.Patient ∨ role = UserRole.Doctor) then .error .InvalidRole
  else if name = "" then .error .EmptyName
  else .ok { s with
    users := fun a =>
      if a = sender then
        { userAddress := sender, name := name, role := role,
          isRegistered := true, registrationTime := now }
      else s.users a }

/-- Contract function `getUserInfo(user)` (view). -/
def getUserInfo (s : State) (user : Address) : String × UserRole × Bool × Nat :=
  ((s.users user).name, (s.users user).role, (s.users user).isRegistered,
   (s.users user).registrationTime)

/-- Contract function `createRecord(ipfsHash, recordType, description)`
(modifiers `onlyRegistered`, `onlyPatient`). -/
def createRecord (s : State) (sender : Address) (now : Nat)
    (ipfsHash recordType description : String) : Except MCError (State × Nat) :=
  if ¬(s.users sender).isRegistered then .error .NotRegistered
  else if ¬(s.users sender).role = UserRole.Patient then .error .WrongRole
  else if ipfsHash = "" then .error .EmptyPayloadReference
  else
    let newId := s.recordCounter + 1
    .ok ({ s with
      recordCounter := newId
      records := fun i =>
        if i = newId then
          { recordId := newId, patientAddress := sender, ipfsHash := ipfsHash,
            recordType := recordType, description := description,
            timestamp := now, exists_ := true }
        else s.records i
      patientRecords := fun a =>
        if a = sender then s.patientRecords a ++ [newId] else s.patientRecords a
      auditTrails := addAuditLog s.auditTrails sender newId now "CREATE" },
      newId)

/-- Contract function `getPatientRecordIds(patient)` (view). -/
def getPatientRecordIds (s : State) (patient : Address) : List Nat :=
  s.patientRecords patient

/-- Internal helper `_hasAccess(patient, doctor, recordId)` (view). -/
def hasAccessInternal (s : State) (now : Nat) (patient doctor : Address) : Bool :=
  let perm := s.permissions patient doctor
  if ¬perm.isActive then false
  else if 0 < perm.expiresAt ∧ perm.expiresAt ≤ now then false
  else true

/-- Contract function `getDoctorAccessibleRecords(doctor)` (view, modifier `onlyDoctor`):
scan record ids `1..recordCounter` in order and keep those that exist
and that the doctor can access. -/
def getDoctorAccessibleRecords (s : State) (sender : Address) (now : Nat)
    (doctor : Address) : Except MCError (List Nat) :=
  if ¬(s.users sender).role = UserRole.Doctor then .error .WrongRole
  else if ¬doctor = sender then .error .Unauthorized
  else .ok (((List.range s.recordCounter).map (· + 1)).filter fun i =>
    (s.records i).exists_ && hasAccessInternal s now (s.records i).patientAddress doctor)

/-- Contract function `getRecord(recordId)` (view, modifier `recordExists`). -/
def getRecord (s : State) (sender : Address) (now : Nat) (recordId : Nat) :
    Except MCError (Address × String × String × String × Nat) :=
  if ¬(s.records recordId).exists_ then .error .RecordNotFound
  else
    let record := s.records recordId
    if sender = record.patientAddress
        ∨ hasAccessInternal s now record.patientAddress sender = true
        ∨ (s.emergencyMode = true ∧ (s.users sender).role = UserRole.Doctor)
        ∨ sender = s.admin then
      .ok (record.patientAddress, record.ipfsHash, record.recordType,
           record.description, record.timestamp)
    else .error .Unauthorized

/-- Contract function `grantAccess(doctor, expiryDuration, purpose)`
(modifiers `onlyRegistered`, `onlyPatient`). -/
def grantAccess (s : State) (sender : Address) (now : Nat)
    (doctor : Address) (expiryDuration : Nat) (purpose : String) :
    Except MCError State :=
  if ¬(s.users sender).isRegistered then .error .NotRegistered
  else if ¬(s.users sender).role = UserRole.Patient then .error .WrongRole
  else if ¬(s.users doctor).role = UserRole.Doctor then .error .GranteeNotDoctor
  else if ¬(s.users doctor).isRegistered then .error .GranteeNotRegistered
  else
    let expiresAt := if 0 < expiryDuration then now + expiryDuration else 0
    .ok { s with
      permissions := fun p d =>
        if p = sender ∧ d = doctor then
          { doctorAddress := doctor, grantedAt := now, expiresAt := expiresAt,
            isActive := true, purpose := purpose }
        else s.permissions p d
      auditTrails := addAuditLog s.auditTrails sender 0 now "GRANT_ACCESS" }

/-- Contract function `revokeAccess(doctor)` (modifiers `onlyRegistered`, `onlyPatient`). -/
def revokeAccess (s : State) (sender : Address) (now : Nat)
    (doctor : Address) : Except MCError State :=
  if ¬(s.users sender).isRegistered then .error .NotRegistered
  else if ¬(s.users sender).role = UserRole.Patient then .error .WrongRole
  else if ¬(s.permissions sender doctor).isActive then .error .NoActivePermission
  else .ok { s with
    permissions := fun p d =>
      if p = sender ∧ d = doctor then
        { s.permissions p d with isActive := false }
      else s.permissions p d
    auditTrails := addAuditLog s.auditTrails sender 0 now "REVOKE_ACCESS" }

/-- Contract function `checkAccess(patient, doctor)` (view): returns
`(valid, grantedAt, expiresAt, purpose)`. -/
def checkAccess (s : State) (now : Nat) (patient doctor : Address) :
    Bool × Nat × Nat × String :=
  let perm := s.permissions patient doctor
  let isValid := perm.isActive && (perm.expiresAt == 0 || decide (now < perm.expiresAt))
  (isValid, perm.grantedAt, perm.expiresAt, perm.purpose)

/-- Contract function `getAuditTrail(user)` (view). -/
def getAuditTrail (s : State) (user : Address) : List AuditLog :=
  s.auditTrails user

/-- Contract function `toggleEmergencyMode()` (modifier `onlyAdmin`). -/
def toggleEmergencyMode (s : State) (sender : Address) : Except MCError State :=
  if ¬sender = s.admin then .error .AdminOnly
  else .ok { s with emergencyMode := !s.emergencyMode }

/-- Contract function `getStats()` (view). -/
def getStats (s : State) : Nat × Bool :=
  (s.recordCounter, s.emergencyMode)

/-- The state-changing entry points of the contract, with the caller
and the block timestamp as explicit data. -/
inductive Op where
  | register (sender : Address) (now : Nat) (name : String) (role : UserRole)
  | create (sender : Address) (now : Nat) (ipfsHash recordType description : String)
  | grant (sender : Address) (now : Nat) (doctor : Address) (dur : Nat) (purpose : String)
  | revoke (sender : Address) (now : Nat) (doctor : Address)
  | toggle (sender : Address)

/-- One transaction: a reverting call leaves the state unchanged. -/
def applyOp (s : State) : Op → State
  | .register sender now name role =>
      match registerUser s sender now name role with
      | .ok s' => s'
      | .error _ => s
  | .create sender now ipfsHash recordType description =>
      match createRecord s sender now ipfsHash recordType description with
      | .ok (s', _) => s'
      | .error _ => s
  | .grant sender now doctor dur purpose =>
      match grantAccess s sender now doctor dur purpose with
      | .ok s' => s'
      | .error _ => s
  | .revoke sender now doctor =>
      match revokeAccess s sender now doctor with
      | .ok s' => s'
      | .error _ => s
  | .toggle sender =>
      match toggleEmergencyMode s sender with
      | .ok s' => s'
      | .error _ => s

/-- States reachable from a fresh deployment by any sequence of calls. -/
inductive Reachable : State → Prop where
  | init (deployer : Address) (now : Nat) : Reachable (constructorMC deployer now)
  | step {s : State} (op : Op) : Reachable s → Reachable (applyOp s op)

/-- The authorization condition of the spec's decision function
`isAuthorized(actor, record)`, phrased through `checkAccess` as the
spec states it (spec-side definition, to be compared with `getRecord`). -/
def specAuthorized (s : State) (now : Nat) (actor : Address) (recordId : Nat) : Prop :=
  actor = (s.records recordId).patientAddress
    ∨ (checkAccess s now (s.records recordId).patientAddress actor).1 = true
    ∨ (s.emergencyMode = true ∧ (s.users actor).role = UserRole.Doctor)
    ∨ actor = s.admin

instance (s : State) (now : Nat) (actor : Address) (recordId : Nat) :
    Decidable (specAuthorized s now actor recordId) := by
  unfold specAuthorized; infer_instance

/-! ### Characterization lemmas for the operations -/

theorem hasAccessInternal_eq_checkAccess (s : State) (now : Nat) (p d : Address) :
    hasAccessInternal s now p d = (checkAccess s now p d).1 := by
  unfold hasAccessInternal checkAccess
  cases hA : (s.permissions p d).isActive
  · simp [hA]
  · by_cases h0 : (s.permissions p d).expiresAt = 0
    · simp [hA, h0]
    · by_cases hle : (s.permissions p d).expiresAt ≤ now
      · have hn : ¬ now < (s.permissions p d).expiresAt := by omega
        simp [hA, h0, hle, hn, Nat.pos_of_ne_zero h0]
      · have hn : now < (s.permissions p d).expiresAt := by omega
        simp [hA, h0, hle, hn]

theorem registerUser_ok_iff (s : State) (sender : Address) (now : Nat)
    (name : String) (role : UserRole) (s' : State) :
    registerUser s sender now name role = .ok s' ↔
      (s.users sender).isRegistered = false ∧
      (role = UserRole.Patient ∨ role = UserRole.Doctor) ∧
      name ≠ "" ∧
      s' = { s with
        users := fun a =>
          if a = sender then
            { userAddress := sender, name := name, role := role,
              isRegistered := true, registrationTime := now }
          else s.users a } := by
  unfold registerUser
  split
  · rename_i h1
    simp [h1]
  · rename_i h1
    split
    · rename_i h2
      simp [h2]
    · rename_i h2
      split
      · rename_i h3
        simp [h3]
      · rename_i h3
        rw [not_not] at h2
        simp only [Bool.not_eq_true] at h1
        constructor
        · intro h
          injection h with h
          exact ⟨h1, h2, h3, h.symm⟩
        · rintro ⟨-, -, -, rfl⟩
          rfl

theorem createRecord_ok_iff (s : State) (sender : Address) (now : Nat)
    (ipfsHash recordType description : String) (s' : State) (newId : Nat) :
    createRecord s sender now ipfsHash recordType description = .ok (s', newId) ↔
      (s.users sender).isRegistered = true ∧
      (s.users sender).role = UserRole.Patient ∧
      ipfsHash ≠ "" ∧
      newId = s.recordCounter + 1 ∧
      s' = { s with
        recordCounter := s.recordCounter + 1
        records := fun i =>
          if i = s.recordCounter + 1 then
            { recordId := s.recordCounter + 1, patientAddress := sender,
              ipfsHash := ipfsHash, recordType := recordType,
              description := description, timestamp := now, exists_ := true }
          else s.records i
        patientRecords := fun a =>
          if a = sender then s.patientRecords a ++ [s.recordCounter + 1]
          else s.patientRecords a
        auditTrails :=
          addAuditLog s.auditTrails sender (s.recordCounter + 1) now "CREATE" } := by
  unfold createRecord
  split
  · rename_i h1
    simp only [Bool.not_eq_true] at h1
    simp [h1]
  · rename_i h1
    split
    · rename_i h2
      simp [h2]
    · rename_i h2
      split
      · rename_i h3
        simp [h3]
      · rename_i h3
        rw [not_not] at h1 h2
        constructor
        · intro h
          injection h with h
          injection h with h hid
          exact ⟨h1, h2, h3, hid.symm, h.symm⟩
        · rintro ⟨-, -, -, rfl, rfl⟩
          rfl

theorem grantAccess_ok_iff (s : State) (sender : Address) (now : Nat)
    (doctor : Address) (expiryDuration : Nat) (purpose : String) (s' : State) :
    grantAccess s sender now doctor expiryDuration purpose = .ok s' ↔
      (s.users sender).isRegistered = true ∧
      (s.users sender).role = UserRole.Patient ∧
      (s.users doctor).role = UserRole.Doctor ∧
      (s.users doctor).isRegistered = true ∧
      s' = { s with
        permissions := fun p d =>
          if p = sender ∧ d = doctor then
            { doctorAddress := doctor, grantedAt := now,
              expiresAt := if 0 < expiryDuration then now + expiryDuration else 0,
              isActive := true, purpose := purpose }
          else s.permissions p d
        auditTrails := addAuditLog s.auditTrails sender 0 now "GRANT_ACCESS" } := by
  unfold grantAccess
  split
  · rename_i h1
    simp only [Bool.not_eq_true] at h1
    simp [h1]
  · rename_i h1
    split
    · rename_i h2
      simp [h2]
    · rename_i h2
      split
      · rename_i h3
        simp [h3]
      · rename_i h3
        split
        · rename_i h4
          simp only [Bool.not_eq_true] at h4
          simp [h4]
        · rename_i h4
          rw [not_not] at h1 h2 h3 h4
          constructor
          · intro h
            injection h with h
            exact ⟨h1, h2, h3, h4, h.symm⟩
          · rintro ⟨-, -, -, -, rfl⟩
            rfl

theorem revokeAccess_ok_iff (s : State) (sender : Address) (now : Nat)
    (doctor : Address) (s' : State) :
    revokeAccess s sender now doctor = .ok s' ↔
      (s.users sender).isRegistered = true ∧
      (s.users sender).role = UserRole.Patient ∧
      (s.permissions sender doctor).isActive = true ∧
      s' = { s with
        permissions := fun p d =>
          if p = sender ∧ d = doctor then
            { s.permissions p d with isActive := false }
          else s.permissions p d
        auditTrails := addAuditLog s.auditTrails sender 0 now "REVOKE_ACCESS" } := by
  unfold revokeAccess
  split
  · rename_i h1
    simp only [Bool.not_eq_true] at h1
    simp [h1]
  · rename_i h1
    split
    · rename_i h2
      simp [h2]
    · rename_i h2
      split
      · rename_i h3
        simp only [Bool.not_eq_true] at h3
        simp [h3]
      · rename_i h3
        rw [not_not] at h1 h2 h3
        constructor
        · intro h
          injection h with h
          exact ⟨h1, h2, h3, h.symm⟩
        · rintro ⟨-, -, -, rfl⟩
          rfl

theorem toggleEmergencyMode_ok_iff (s : State) (sender : Address) (s' : State) :
    toggleEmergencyMode s sender = .ok s' ↔
      sender = s.admin ∧ s' = { s with emergencyMode := !s.emergencyMode } := by
  unfold toggleEmergencyMode
  split
  · rename_i h1
    simp [h1]
  · rename_i h1
    rw [not_not] at h1
    constructor
    · intro h
      injection h with h
      exact ⟨h1, h.symm⟩
    · rintro ⟨-, rfl⟩
      rfl

/-! ### The reachability invariant -/

/-- Invariant maintained by every reachable state: the admin is a
registered `Admin` and the only one; unregistered users have the zero
role; record ids are exactly `1..recordCounter` and each stored record
carries its own key as `recordId`. -/
def Inv (s : State) : Prop :=
  (s.users s.admin).isRegistered = true ∧
  (s.users s.admin).role = UserRole.Admin ∧
  (∀ a, (s.users a).role = UserRole.Admin → a = s.admin) ∧
  (∀ a, (s.users a).isRegistered = false → (s.users a).role = UserRole.None) ∧
  (∀ i, (s.records i).exists_ = true ↔ 1 ≤ i ∧ i ≤ s.recordCounter) ∧
  (∀ i, (s.records i).exists_ = true → (s.records i).recordId = i)

theorem inv_constructorMC (dep : Address) (now : Nat) :
    Inv (constructorMC dep now) := by
  unfold Inv constructorMC
  refine ⟨by simp, by simp, ?_, ?_, ?_, ?_⟩
  · intro a ha
    by_cases h : a = dep
    · exact h
    · simp [h, User.zero] at ha
  · intro a ha
    by_cases h : a = dep
    · simp [h] at ha
    · simp [h, User.zero]
  · intro i
    simp [MedicalRecord.zero]
    omega
  · intro i
    simp [MedicalRecord.zero]

theorem inv_registerUser {s s' : State} {sender : Address} {now : Nat}
    {name : String} {role : UserRole}
    (h : registerUser s sender now name role = .ok s') (hI : Inv s) : Inv s' := by
  rw [registerUser_ok_iff] at h
  obtain ⟨hnr, hrole, -, rfl⟩ := h
  obtain ⟨i1, i2, i3, i4, i5, i6⟩ := hI
  have hsne : s.admin ≠ sender := by
    intro he
    rw [← he, i1] at hnr
    cases hnr
  refine ⟨?_, ?_, ?_, ?_, i5, i6⟩
  · simpa [hsne] using i1
  · simpa [hsne] using i2
  · intro a ha
    by_cases h : a = sender
    · simp [h] at ha
      rcases hrole with hr | hr <;> rw [hr] at ha <;> cases ha
    · simp [h] at ha
      exact i3 a ha
  · intro a ha
    by_cases h : a = sender
    · simp [h] at ha
    · simp [h] at ha ⊢
      exact i4 a ha

theorem inv_createRecord {s s' : State} {sender : Address} {now newId : Nat}
    {ipfsHash recordType description : String}
    (h : createRecord s sender now ipfsHash recordType description = .ok (s', newId))
    (hI : Inv s) : Inv s' := by
  rw [createRecord_ok_iff] at h
  obtain ⟨-, -, -, -, rfl⟩ := h
  obtain ⟨i1, i2, i3, i4, i5, i6⟩ := hI
  refine ⟨i1, i2, i3, i4, ?_, ?_⟩
  · intro i
    by_cases hi : i = s.recordCounter + 1
    · simp [hi]
    · have := i5 i
      simp only at this ⊢
      rw [if_neg hi, this]
      omega
  · intro i
    by_cases hi : i = s.recordCounter + 1
    · simp [hi]
    · simp only at *
      rw [if_neg hi] at *
      exact i6 i

theorem inv_grantAccess {s s' : State} {sender doctor : Address}
    {now expiryDuration : Nat} {purpose : String}
    (h : grantAccess s sender now doctor expiryDuration purpose = .ok s')
    (hI : Inv s) : Inv s' := by
  rw [grantAccess_ok_iff] at h
  obtain ⟨-, -, -, -, rfl⟩ := h
  exact hI

theorem inv_revokeAccess {s s' : State} {sender doctor : Address} {now : Nat}
    (h : revokeAccess s sender now doctor = .ok s') (hI : Inv s) : Inv s' := by
  rw [revokeAccess_ok_iff] at h
  obtain ⟨-, -, -, rfl⟩ := h
  exact hI

theorem inv_toggleEmergencyMode {s s' : State} {sender : Address}
    (h : toggleEmergencyMode s sender = .ok s') (hI : Inv s) : Inv s' := by
  rw [toggleEmergencyMode_ok_iff] at h
  obtain ⟨-, rfl⟩ := h
  exact hI

theorem inv_applyOp {s : State} (op : Op) (hI : Inv s) : Inv (applyOp s op) := by
  cases op with
  | register sender now name role =>
      simp only [applyOp]
      cases h : registerUser s sender now name role with
      | ok s' => exact inv_registerUser h hI
      | error _ => exact hI
  | create sender now ipfsHash recordType description =>
      simp only [applyOp]
      cases h : createRecord s sender now ipfsHash recordType description with
      | ok p =>
          obtain ⟨s', id⟩ := p
          exact inv_createRecord h hI
      | error _ => exact hI
  | grant sender now doctor dur purpose =>
      simp only [applyOp]
      cases h : grantAccess s sender now doctor dur purpose with
      | ok s' => exact inv_grantAccess h hI
      | error _ => exact hI
  | revoke sender now doctor =>
      simp only [applyOp]
      cases h : revokeAccess s sender now doctor with
      | ok s' => exact inv_revokeAccess h hI
      | error _ => exact hI
  | toggle sender =>
      simp only [applyOp]
      cases h : toggleEmergencyMode s sender with
      | ok s' => exact inv_toggleEmergencyMode h hI
      | error _ => exact hI

theorem reachable_inv {s : State} (h : Reachable s) : Inv s := by
  induction h with
  | init dep now => exact inv_constructorMC dep now
  | step op _ ih => exact inv_applyOp op ih

/-! ### Frame lemmas over transactions -/

theorem applyOp_users_frame (s : State) (a : Address) (op : Op)
    (ha : (s.users a).isRegistered = true) :
    (applyOp s op).users a = s.users a := by
  cases op with
  | register sender now name role =>
      simp only [applyOp]
      cases h : registerUser s sender now name role with
      | ok s' =>
          rw [registerUser_ok_iff] at h
          obtain ⟨hnr, -, -, rfl⟩ := h
          have hne : a ≠ sender := by
            intro he
            rw [he, hnr] at ha
            cases ha
          simp [hne]
      | error e => rfl
  | create sender now x y z =>
      simp only [applyOp]
      cases h : createRecord s sender now x y z with
      | ok p =>
          obtain ⟨s', id⟩ := p
          rw [createRecord_ok_iff] at h
          obtain ⟨-, -, -, -, rfl⟩ := h
          rfl
      | error e => rfl
  | grant sender now doctor dur purpose =>
      simp only [applyOp]
      cases h : grantAccess s sender now doctor dur purpose with
      | ok s' =>
          rw [grantAccess_ok_iff] at h
          obtain ⟨-, -, -, -, rfl⟩ := h
          rfl
      | error e => rfl
  | revoke sender now doctor =>
      simp only [applyOp]
      cases h : revokeAccess s sender now doctor with
      | ok s' =>
          rw [revokeAccess_ok_iff] at h
          obtain ⟨-, -, -, rfl⟩ := h
          rfl
      | error e => rfl
  | toggle sender =>
      simp only [applyOp]
      cases h : toggleEmergencyMode s sender with
      | ok s' =>
          rw [toggleEmergencyMode_ok_iff] at h
          obtain ⟨-, rfl⟩ := h
          rfl
      | error e => rfl

theorem applyOp_admin_frame (s : State) (op : Op) :
    (applyOp s op).admin = s.admin := by
  cases op with
  | register sender now name role =>
      simp only [applyOp]
      cases h : registerUser s sender now name role with
      | ok s' =>
          rw [registerUser_ok_iff] at h
          obtain ⟨-, -, -, rfl⟩ := h
          rfl
      | error e => rfl
  | create sender now x y z =>
      simp only [applyOp]
      cases h : createRecord s sender now x y z with
      | ok p =>
          obtain ⟨s', id⟩ := p
          rw [createRecord_ok_iff] at h
          obtain ⟨-, -, -, -, rfl⟩ := h
          rfl
      | error e => rfl
  | grant sender now doctor dur purpose =>
      simp only [applyOp]
      cases h : grantAccess s sender now doctor dur purpose with
      | ok s' =>
          rw [grantAccess_ok_iff] at h
          obtain ⟨-, -, -, -, rfl⟩ := h
          rfl
      | error e => rfl
  | revoke sender now doctor =>
      simp only [applyOp]
      cases h : revokeAccess s sender now doctor with
      | ok s' =>
          rw [revokeAccess_ok_iff] at h
          obtain ⟨-, -, -, rfl⟩ := h
          rfl
      | error e => rfl
  | toggle sender =>
      simp only [applyOp]
      cases h : toggleEmergencyMode s sender with
      | ok s' =>
          rw [toggleEmergencyMode_ok_iff] at h
          obtain ⟨-, rfl⟩ := h
          rfl
      | error e => rfl

theorem applyOp_records_frame (s : State) (i : Nat) (op : Op) (hI : Inv s)
    (hex : (s.records i).exists_ = true) :
    (applyOp s op).records i = s.records i := by
  obtain ⟨-, -, -, -, i5, -⟩ := hI
  cases op with
  | register sender now name role =>
      simp only [applyOp]
      cases h : registerUser s sender now name role with
      | ok s' =>
          rw [registerUser_ok_iff] at h
          obtain ⟨-, -, -, rfl⟩ := h
          rfl
      | error e => rfl
  | create sender now x y z =>
      simp only [applyOp]
      cases h : createRecord s sender now x y z with
      | ok p =>
          obtain ⟨s', id⟩ := p
          rw [createRecord_ok_iff] at h
          obtain ⟨-, -, -, -, rfl⟩ := h
          have hbound := (i5 i).mp hex
          have hne : i ≠ s.recordCounter + 1 := by omega
          simp [hne]
      | error e => rfl
  | grant sender now doctor dur purpose =>
      simp only [applyOp]
      cases h : grantAccess s sender now doctor dur purpose with
      | ok s' =>
          rw [grantAccess_ok_iff] at h
          obtain ⟨-, -, -, -, rfl⟩ := h
          rfl
      | error e => rfl
  | revoke sender now doctor =>
      simp only [applyOp]
      cases h : revokeAccess s sender now doctor with
      | ok s' =>
          rw [revokeAccess_ok_iff] at h
          obtain ⟨-, -, -, rfl⟩ := h
          rfl
      | error e => rfl
  | toggle sender =>
      simp only [applyOp]
      cases h : toggleEmergencyMode s sender with
      | ok s' =>
          rw [toggleEmergencyMode_ok_iff] at h
          obtain ⟨-, rfl⟩ := h
          rfl
      | error e => rfl

theorem addAuditLog_append (trails : Address → List AuditLog)
    (accessor : Address) (recordId now : Nat) (action : String) (a : Address) :
    ∃ t, addAuditLog trails accessor recordId now action a = trails a ++ t := by
  unfold addAuditLog
  by_cases h : a = accessor
  · refine ⟨[{ accessor := accessor, recordId := recordId,
               timestamp := now, action := action }], ?_⟩
    simp [h]
  · exact ⟨[], by simp [h]⟩

theorem applyOp_audit_append (s : State) (a : Address) (op : Op) :
    ∃ t, (applyOp s op).auditTrails a = s.auditTrails a ++ t := by
  cases op with
  | register sender now name role =>
      simp only [applyOp]
      cases h : registerUser s sender now name role with
      | ok s' =>
          rw [registerUser_ok_iff] at h
          obtain ⟨-, -, -, rfl⟩ := h
          exact ⟨[], by simp⟩
      | error e => exact ⟨[], by simp⟩
  | create sender now x y z =>
      simp only [applyOp]
      cases h : createRecord s sender now x y z with
      | ok p =>
          obtain ⟨s', id⟩ := p
          rw [createRecord_ok_iff] at h
          obtain ⟨-, -, -, -, rfl⟩ := h
          exact addAuditLog_append s.auditTrails sender (s.recordCounter + 1) now "CREATE" a
      | error e => exact ⟨[], by simp⟩
  | grant sender now doctor dur purpose =>
      simp only [applyOp]
      cases h : grantAccess s sender now doctor dur purpose with
      | ok s' =>
          rw [grantAccess_ok_iff] at h
          obtain ⟨-, -, -, -, rfl⟩ := h
          exact addAuditLog_append s.auditTrails sender 0 now "GRANT_ACCESS" a
      | error e => exact ⟨[], by simp⟩
  | revoke sender now doctor =>
      simp only [applyOp]
      cases h : revokeAccess s sender now doctor with
      | ok s' =>
          rw [revokeAccess_ok_iff] at h
          obtain ⟨-, -, -, rfl⟩ := h
          exact addAuditLog_append s.auditTrails sender 0 now "REVOKE_ACCESS" a
      | error e => exact ⟨[], by simp⟩
  | toggle sender =>
      simp only [applyOp]
      cases h : toggleEmergencyMode s sender with
      | ok s' =>
          rw [toggleEmergencyMode_ok_iff] at h
          obtain ⟨-, rfl⟩ := h
          exact ⟨[], by simp⟩
      | error e => exact ⟨[], by simp⟩

/-! ### A concrete deployment used to witness the theorems -/

def sW0 : State := constructorMC 1 0
def sW1 : State := applyOp sW0 (.register 2 0 "Alice" .Patient)
def sW2 : State := applyOp sW1 (.register 3 0 "Bob" .Doctor)
def sW3 : State := applyOp sW2 (.create 2 5 "Qm" "Lab" "desc")
def sW4 : State := applyOp sW3 (.grant 2 10 3 100 "care")
def sW5 : State := applyOp sW4 (.revoke 2 50 3)
def sW6 : State := applyOp sW4 (.grant 2 30 3 0 "followup")

theorem reachable_sW4 : Reachable sW4 :=
  .step _ (.step _ (.step _ (.step _ (.init 1 0))))

theorem reachable_sW5 : Reachable sW5 := .step _ reachable_sW4

/-! ### The claims -/

/-- C1: for every record id that was created and every actor,
`getRecord(actor, id)` returns the record's fields iff the actor is the
record's owner, or `checkAccess(owner, actor)` is valid, or emergency
mode is active and the actor's role is Doctor, or the actor is the
admin; otherwise it fails with `Unauthorized`; and for any id never
created it fails with `RecordNotFound` regardless of the actor. -/
theorem getRecord_authorization (s : State) (now : Nat) (actor : Address)
    (recordId : Nat) :
    ((s.records recordId).exists_ = false →
      getRecord s actor now recordId = .error .RecordNotFound) ∧
    ((s.records recordId).exists_ = true →
      (specAuthorized s now actor recordId →
        getRecord s actor now recordId =
          .ok ((s.records recordId).patientAddress, (s.records recordId).ipfsHash,
               (s.records recordId).recordType, (s.records recordId).description,
               (s.records recordId).timestamp)) ∧
      (¬ specAuthorized s now actor recordId →
        getRecord s actor now recordId = .error .Unauthorized)) := by
  constructor
  · intro hex
    unfold getRecord
    rw [if_pos]
    simp [hex]
  · intro hex
    have hco : ¬¬(s.records recordId).exists_ = true := by simp [hex]
    constructor
    · intro hauth
      unfold specAuthorized at hauth
      rw [← hasAccessInternal_eq_checkAccess] at hauth
      unfold getRecord
      rw [if_neg hco, if_pos hauth]
    · intro hauth
      unfold specAuthorized at hauth
      rw [← hasAccessInternal_eq_checkAccess] at hauth
      unfold getRecord
      rw [if_neg hco, if_neg hauth]

/-- C1 witness: on the concrete deployment, the grantee doctor reads the
record while the grant is valid, is refused after it expires, and any
actor gets `RecordNotFound` on a never-created id. -/
theorem getRecord_authorization_witness :
    getRecord sW4 3 20 1 = .ok (2, "Qm", "Lab", "desc", 5) ∧
    getRecord sW4 3 200 1 = .error .Unauthorized ∧
    getRecord sW4 9 20 7 = .error .RecordNotFound :=
  ⟨((getRecord_authorization sW4 20 3 1).2 (by decide)).1 (by decide),
   ((getRecord_authorization sW4 200 3 1).2 (by decide)).2 (by decide),
   (getRecord_authorization sW4 20 9 7).1 (by decide)⟩

/-- C2: `checkAccess(patient, doctor)` returns
`(valid, grantedAt, expiresAt, purpose)` of the stored grant where
`valid = active AND (expiresAt == 0 OR expiresAt > now)`; in particular
a grant with `expiresAt == 0` is never treated as expired.  (It is a
pure query by construction: its type reads the state and returns no
state and no audit entry.) -/
theorem checkAccess_pure_query (s : State) (now : Nat) (patient doctor : Address) :
    ((checkAccess s now patient doctor).1 = true ↔
      (s.permissions patient doctor).isActive = true ∧
      ((s.permissions patient doctor).expiresAt = 0 ∨
        now < (s.permissions patient doctor).expiresAt)) ∧
    (checkAccess s now patient doctor).2.1 = (s.permissions patient doctor).grantedAt ∧
    (checkAccess s now patient doctor).2.2.1 = (s.permissions patient doctor).expiresAt ∧
    (checkAccess s now patient doctor).2.2.2 = (s.permissions patient doctor).purpose ∧
    ((s.permissions patient doctor).isActive = true →
      (s.permissions patient doctor).expiresAt = 0 →
      (checkAccess s now patient doctor).1 = true) := by
  refine ⟨?_, rfl, rfl, rfl, ?_⟩
  · unfold checkAccess
    simp
  · intro hA h0
    unfold checkAccess
    simp [hA, h0]

/-- C2 witness: on the concrete deployment the grant to doctor 3 is
valid before its expiry and invalid after; a permanent re-grant
(`expiresAt = 0`) stays valid at an arbitrarily late time. -/
theorem checkAccess_pure_query_witness :
    (checkAccess sW4 50 2 3).1 = true ∧
    (checkAccess sW4 200 2 3).2.2.1 = 110 ∧
    (checkAccess sW6 1000000 2 3).1 = true :=
  ⟨(checkAccess_pure_query sW4 50 2 3).1.mpr (by decide),
   (checkAccess_pure_query sW4 200 2 3).2.2.1.trans (by decide),
   (checkAccess_pure_query sW6 1000000 2 3).2.2.2.2 (by decide) (by decide)⟩

/-- C3: for every registered Doctor calling with their own id,
`getDoctorAccessibleRecords` returns, in ascending id order, exactly
the ids of existing records whose owner has an active, unexpired grant
to that doctor; membership does not depend on emergency mode or on the
admin identity. -/
theorem doctorAccessibleRecords_exact (s : State) (now : Nat) (doctor : Address)
    (hs : Reachable s)
    (hreg : (s.users doctor).isRegistered = true)
    (hrole : (s.users doctor).role = UserRole.Doctor) :
    ∃ l, getDoctorAccessibleRecords s doctor now doctor = .ok l ∧
      l.Pairwise (· < ·) ∧
      (∀ i, i ∈ l ↔ (s.records i).exists_ = true ∧
        (checkAccess s now (s.records i).patientAddress doctor).1 = true) ∧
      (∀ em adm, getDoctorAccessibleRecords
        { s with emergencyMode := em, admin := adm } doctor now doctor = .ok l) := by
  obtain ⟨-, -, -, -, i5, -⟩ := reachable_inv hs
  refine ⟨((List.range s.recordCounter).map (· + 1)).filter (fun i =>
      (s.records i).exists_ && hasAccessInternal s now (s.records i).patientAddress doctor),
    ?_, ?_, ?_, ?_⟩
  · unfold getDoctorAccessibleRecords
    rw [if_neg (by simp [hrole]), if_neg (by simp)]
  · exact (((List.pairwise_lt_range s.recordCounter).map (· + 1)
      (fun a b hab => Nat.succ_lt_succ hab)).sublist (List.filter_sublist _))
  · intro i
    rw [List.mem_filter]
    constructor
    · rintro ⟨-, hp⟩
      rw [Bool.and_eq_true, hasAccessInternal_eq_checkAccess] at hp
      exact hp
    · rintro ⟨hex, hv⟩
      refine ⟨?_, ?_⟩
      · have hb := (i5 i).mp hex
        rw [List.mem_map]
        exact ⟨i - 1, by rw [List.mem_range]; omega, by omega⟩
      · rw [Bool.and_eq_true, hasAccessInternal_eq_checkAccess]
        exact ⟨hex, hv⟩
  · intro em adm
    unfold getDoctorAccessibleRecords
    rw [if_neg (by simp [hrole]), if_neg (by simp)]
    rfl

/-- C3 witness: on the concrete deployment the doctor sees exactly
record 1 while the grant is live, and membership is unchanged when
emergency mode is forced on and the admin identity is moved. -/
theorem doctorAccessibleRecords_exact_witness :
    ∃ l, getDoctorAccessibleRecords sW4 3 20 3 = .ok l ∧
      l.Pairwise (· < ·) ∧
      (∀ i, i ∈ l ↔ (sW4.records i).exists_ = true ∧
        (checkAccess sW4 20 (sW4.records i).patientAddress 3).1 = true) ∧
      (∀ em adm, getDoctorAccessibleRecords
        { sW4 with emergencyMode := em, admin := adm } 3 20 3 = .ok l) :=
  doctorAccessibleRecords_exact sW4 20 3 reachable_sW4 (by decide) (by decide)

/-- C4: calling `grantAccess` a second time for the same
`(patient, doctor)` pair overwrites the stored grant entirely: after
grants G1 then G2 the stored permission and `checkAccess` reflect only
G2's `grantedAt`, `expiresAt` (`now + duration` if `duration > 0`,
else `0`), active flag and purpose. -/
theorem grantAccess_overwrites (s s1 s2 : State) (patient doctor : Address)
    (now1 now2 t dur1 dur2 : Nat) (purpose1 purpose2 : String)
    (h1 : grantAccess s patient now1 doctor dur1 purpose1 = .ok s1)
    (h2 : grantAccess s1 patient now2 doctor dur2 purpose2 = .ok s2) :
    s2.permissions patient doctor =
      { doctorAddress := doctor, grantedAt := now2,
        expiresAt := if 0 < dur2 then now2 + dur2 else 0,
        isActive := true, purpose := purpose2 } ∧
    checkAccess s2 t patient doctor =
      (decide (dur2 = 0 ∨ t < now2 + dur2), now2,
       (if 0 < dur2 then now2 + dur2 else 0), purpose2) := by
  rw [grantAccess_ok_iff] at h2
  obtain ⟨-, -, -, -, rfl⟩ := h2
  constructor
  · simp
  · by_cases hd : 0 < dur2
    · by_cases ht : t < now2 + dur2
      · simp [checkAccess, hd, ht]
      · have hne : ¬(now2 + dur2 = 0) := by omega
        have hnd : ¬(dur2 = 0) := by omega
        simp [checkAccess, hd, ht, hne, hnd]
    · have hd0 : dur2 = 0 := by omega
      simp [checkAccess, hd, hd0]

/-- C4 witness: after granting doctor 3 for 100 seconds and then
re-granting permanently (`duration = 0`), only the second grant's
parameters are observable. -/
theorem grantAccess_overwrites_witness :
    sW6.permissions 2 3 =
      { doctorAddress := 3, grantedAt := 30, expiresAt := 0,
        isActive := true, purpose := "followup" } ∧
    checkAccess sW6 1000000 2 3 = (true, 30, 0, "followup") :=
  grantAccess_overwrites sW3 sW4 sW6 2 3 10 30 1000000 100 0 "care" "followup"
    rfl rfl

/-- C5: for a registered Patient caller, `revokeAccess` succeeds iff the
stored grant's active flag is true (so revoking an expired-but-active
grant succeeds, setting the flag to false, at any current time), while
revoking an inactive grant fails with `NoActivePermission` and leaves
the whole state unchanged. -/
theorem revokeAccess_active_iff (s : State) (caller doctor : Address) (now : Nat)
    (hreg : (s.users caller).isRegistered = true)
    (hrole : (s.users caller).role = UserRole.Patient) :
    ((∃ s', revokeAccess s caller now doctor = .ok s') ↔
      (s.permissions caller doctor).isActive = true) ∧
    (∀ s', revokeAccess s caller now doctor = .ok s' →
      s'.permissions caller doctor =
        { s.permissions caller doctor with isActive := false }) ∧
    ((s.permissions caller doctor).isActive = false →
      revokeAccess s caller now doctor = .error .NoActivePermission ∧
      applyOp s (Op.revoke caller now doctor) = s) := by
  refine ⟨⟨?_, ?_⟩, ?_, ?_⟩
  · rintro ⟨s', hs'⟩
    rw [revokeAccess_ok_iff] at hs'
    exact hs'.2.2.1
  · intro hA
    exact ⟨_, (revokeAccess_ok_iff s caller now doctor _).mpr ⟨hreg, hrole, hA, rfl⟩⟩
  · intro s' hs'
    rw [revokeAccess_ok_iff] at hs'
    obtain ⟨-, -, -, rfl⟩ := hs'
    simp
  · intro hA
    have herr : revokeAccess s caller now doctor = .error .NoActivePermission := by
      unfold revokeAccess
      rw [if_neg (by simp [hreg]), if_neg (by simp [hrole]), if_pos (by simp [hA])]
    refine ⟨herr, ?_⟩
    simp only [applyOp, herr]

/-- C5 witness: revoking the long-expired but still active grant at
time 1000 succeeds; revoking again after the flag went false fails with
`NoActivePermission`. -/
theorem revokeAccess_active_iff_witness :
    (∃ s', revokeAccess sW4 2 1000 3 = .ok s') ∧
    revokeAccess sW5 2 60 3 = .error .NoActivePermission :=
  ⟨(revokeAccess_active_iff sW4 2 3 1000 (by decide) (by decide)).1.mpr (by decide),
   ((revokeAccess_active_iff sW5 2 3 60 (by decide) (by decide)).2.2 (by decide)).1⟩

/-- C6: in every reachable state, record ids are unique, densely
assigned starting at 1 (`exists` iff `1 ≤ i ≤ recordCounter`, and the
stored record carries its key as id), a successful `createRecord`
assigns id `recordCounter + 1` and bumps the counter by exactly one,
and no transaction mutates or deletes an existing record. -/
theorem record_ids_dense_immutable (s : State) (hs : Reachable s) :
    (∀ i, (s.records i).exists_ = true ↔ 1 ≤ i ∧ i ≤ s.recordCounter) ∧
    (∀ i, (s.records i).exists_ = true → (s.records i).recordId = i) ∧
    (∀ sender now x y z s' newId,
      createRecord s sender now x y z = .ok (s', newId) →
      newId = s.recordCounter + 1 ∧ s'.recordCounter = s.recordCounter + 1) ∧
    (∀ op i, (s.records i).exists_ = true →
      (applyOp s op).records i = s.records i) := by
  refine ⟨(reachable_inv hs).2.2.2.2.1, (reachable_inv hs).2.2.2.2.2, ?_, ?_⟩
  · intro sender now x y z s' newId h
    rw [createRecord_ok_iff] at h
    obtain ⟨-, -, -, rfl, rfl⟩ := h
    exact ⟨rfl, rfl⟩
  · intro op i hex
    exact applyOp_records_frame s i op (reachable_inv hs) hex

/-- C6 witness: the concrete deployment has exactly record 1 (dense from
1 to the counter), carrying its own id. -/
theorem record_ids_dense_immutable_witness :
    (sW4.records 1).exists_ = true ∧ (sW4.records 2).exists_ = false ∧
    (sW4.records 1).recordId = 1 := by
  have h := record_ids_dense_immutable sW4 reachable_sW4
  refine ⟨(h.1 1).mpr (by decide), ?_, h.2.1 1 (by decide)⟩
  cases hb : (sW4.records 2).exists_
  · rfl
  · exact absurd ((h.1 2).mp hb) (by decide)

/-- C7: a registered identity's stored user (hence its role) is
unchanged by every transaction, a second `registerUser` for it always
fails with `AlreadyRegistered`, exactly the admin identity has role
Admin, and the admin identity is unchanged by every transaction. -/
theorem role_immutable_single_admin (s : State) (hs : Reachable s) :
    (∀ a op, (s.users a).isRegistered = true →
      (applyOp s op).users a = s.users a) ∧
    (∀ a now name role, (s.users a).isRegistered = true →
      registerUser s a now name role = .error .AlreadyRegistered) ∧
    (∀ a, (s.users a).role = UserRole.Admin ↔ a = s.admin) ∧
    (∀ op, (applyOp s op).admin = s.admin) := by
  obtain ⟨-, i2, i3, -, -, -⟩ := reachable_inv hs
  refine ⟨?_, ?_, ?_, ?_⟩
  · intro a op ha
    exact applyOp_users_frame s a op ha
  · intro a now name role ha
    unfold registerUser
    rw [if_pos ha]
  · intro a
    constructor
    · exact i3 a
    · rintro rfl
      exact i2
  · intro op
    exact applyOp_admin_frame s op

/-- C7 witness: re-registering patient 2 fails with `AlreadyRegistered`
and doctor 3 does not hold the Admin role. -/
theorem role_immutable_single_admin_witness :
    registerUser sW4 2 99 "Again" UserRole.Doctor = .error .AlreadyRegistered ∧
    (sW4.users 3).role ≠ UserRole.Admin := by
  have h := role_immutable_single_admin sW4 reachable_sW4
  refine ⟨h.2.1 2 99 "Again" UserRole.Doctor (by decide), fun hadm => ?_⟩
  exact absurd ((h.2.2.1 3).mp hadm) (by decide)

/-- C8: `getAuditTrail` returns exactly the actor's stored trail; every
transaction only appends to it (never mutates earlier entries);
registration and the emergency toggle append nothing; and each
successful `createRecord` / `grantAccess` / `revokeAccess` appends
exactly one `CREATE` / `GRANT_ACCESS` / `REVOKE_ACCESS` entry to the
caller's trail and nothing to anyone else's.  (`getRecord` and
`checkAccess` are view functions in the embedding: they return no
state, so they can append nothing, matching the absence of any `VIEW`
entry.) -/
theorem audit_trail_append_only (s : State) (a : Address) :
    (getAuditTrail s a = s.auditTrails a) ∧
    (∀ op, ∃ t, (applyOp s op).auditTrails a = s.auditTrails a ++ t) ∧
    (∀ sender now name role s',
      registerUser s sender now name role = .ok s' →
      s'.auditTrails a = s.auditTrails a) ∧
    (∀ sender s', toggleEmergencyMode s sender = .ok s' →
      s'.auditTrails a = s.auditTrails a) ∧
    (∀ sender now x y z s' newId,
      createRecord s sender now x y z = .ok (s', newId) →
      s'.auditTrails a =
        if a = sender
        then s.auditTrails a ++
          [{ accessor := sender, recordId := newId, timestamp := now,
             action := "CREATE" }]
        else s.auditTrails a) ∧
    (∀ sender now doctor dur purpose s',
      grantAccess s sender now doctor dur purpose = .ok s' →
      s'.auditTrails a =
        if a = sender
        then s.auditTrails a ++
          [{ accessor := sender, recordId := 0, timestamp := now,
             action := "GRANT_ACCESS" }]
        else s.auditTrails a) ∧
    (∀ sender now doctor s',
      revokeAccess s sender now doctor = .ok s' →
      s'.auditTrails a =
        if a = sender
        then s.auditTrails a ++
          [{ accessor := sender, recordId := 0, timestamp := now,
             action := "REVOKE_ACCESS" }]
        else s.auditTrails a) := by
  refine ⟨rfl, fun op => applyOp_audit_append s a op, ?_, ?_, ?_, ?_, ?_⟩
  · intro sender now name role s' h
    rw [registerUser_ok_iff] at h
    obtain ⟨-, -, -, rfl⟩ := h
    rfl
  · intro sender s' h
    rw [toggleEmergencyMode_ok_iff] at h
    obtain ⟨-, rfl⟩ := h
    rfl
  · intro sender now x y z s' newId h
    rw [createRecord_ok_iff] at h
    obtain ⟨-, -, -, rfl, rfl⟩ := h
    rfl
  · intro sender now doctor dur purpose s' h
    rw [grantAccess_ok_iff] at h
    obtain ⟨-, -, -, -, rfl⟩ := h
    rfl
  · intro sender now doctor s' h
    rw [revokeAccess_ok_iff] at h
    obtain ⟨-, -, -, rfl⟩ := h
    rfl

/-- C8 witness: patient 2's trail on the concrete deployment is exactly
its `CREATE` then `GRANT_ACCESS` entries, and the grant appended
exactly its one entry. -/
theorem audit_trail_append_only_witness :
    getAuditTrail sW4 2 =
      [{ accessor := 2, recordId := 1, timestamp := 5, action := "CREATE" },
       { accessor := 2, recordId := 0, timestamp := 10, action := "GRANT_ACCESS" }] ∧
    sW4.auditTrails 2 = sW3.auditTrails 2 ++
      [{ accessor := 2, recordId := 0, timestamp := 10, action := "GRANT_ACCESS" }] := by
  refine ⟨(audit_trail_append_only sW4 2).1.trans (by decide), ?_⟩
  have h := (audit_trail_append_only sW3 2).2.2.2.2.2.1 2 10 3 100 "care" sW4 rfl
  simpa using h

/-- C9: in every reachable state, the `GranteeNotRegistered` branch of
`grantAccess` is unreachable: a user whose role is Doctor (which the
preceding check requires) is necessarily registered, because non-`None`
roles are only assigned together with the registered flag. -/
theorem granteeNotRegistered_unreachable (s : State) (hs : Reachable s)
    (sender doctor : Address) (now dur : Nat) (purpose : String) :
    grantAccess s sender now doctor dur purpose ≠ .error .GranteeNotRegistered := by
  obtain ⟨-, -, -, i4, -, -⟩ := reachable_inv hs
  intro h
  unfold grantAccess at h
  split at h
  · simp at h
  · split at h
    · simp at h
    · split at h
      · simp at h
      · split at h
        · rename_i h3 h4
          rw [not_not] at h3
          simp only [Bool.not_eq_true] at h4
          rw [i4 doctor h4] at h3
          cases h3
        · simp at h

/-- C9 witness: on the concrete deployment no parameters make
`grantAccess` return `GranteeNotRegistered` (here: an unregistered
caller, so the call fails earlier). -/
theorem granteeNotRegistered_unreachable_witness :
    grantAccess sW4 42 99 3 50 "p" ≠ .error .GranteeNotRegistered :=
  granteeNotRegistered_unreachable sW4 reachable_sW4 42 3 99 50 "p"

/-- C10: `revokeAccess` additionally requires the caller to be
registered with role Patient: an unregistered caller fails with
`NotRegistered` and a registered non-Patient (a Doctor or the Admin)
fails with `WrongRole`, in both cases before the grant's active flag is
examined (the result is the same whatever the stored grant is) and with
the whole state unchanged. -/
theorem revokeAccess_role_guards (s : State) (caller doctor : Address) (now : Nat) :
    ((s.users caller).isRegistered = false →
      revokeAccess s caller now doctor = .error .NotRegistered ∧
      applyOp s (Op.revoke caller now doctor) = s) ∧
    ((s.users caller).isRegistered = true →
      (s.users caller).role ≠ UserRole.Patient →
      revokeAccess s caller now doctor = .error .WrongRole ∧
      applyOp s (Op.revoke caller now doctor) = s) := by
  constructor
  · intro hnr
    have herr : revokeAccess s caller now doctor = .error .NotRegistered := by
      unfold revokeAccess
      rw [if_pos (by simp [hnr])]
    refine ⟨herr, ?_⟩
    simp only [applyOp, herr]
  · intro hreg hrole
    have herr : revokeAccess s caller now doctor = .error .WrongRole := by
      unfold revokeAccess
      rw [if_neg (by simp [hreg]), if_pos hrole]
    refine ⟨herr, ?_⟩
    simp only [applyOp, herr]

/-- C10 witness: the registered doctor 3 (even holding an active grant
relationship) cannot revoke and fails with `WrongRole`; the unregistered
address 42 fails with `NotRegistered`. -/
theorem revokeAccess_role_guards_witness :
    revokeAccess sW4 3 99 2 = .error .WrongRole ∧
    revokeAccess sW4 42 99 3 = .error .NotRegistered :=
  ⟨((revokeAccess_role_guards sW4 3 2 99).2 (by decide) (by decide)).1,
   ((revokeAccess_role_guards sW4 42 3 99).1 (by decide)).1⟩

end MedChain
